import Mathlib

/-!
# github-review-helper: webhook routing and command recognition

A shallow embedding of `main.go`: the request handler built by `CreateHandler`,
the two event handlers `handleIssueComment` and `handlePullRequestEvent`, and the
approval pattern `isPlusOneComment`.

Functions of the repository that `main.go` calls but does not define
(`checkAuthentication`, the parsers, the command predicates and the command
handlers) are parameters of the embedding, collected in `Deps`.
-/

namespace ReviewHelper

/-! ## Regular expressions (the fragment of Go's `regexp` used by `main.go`) -/

/-- Syntax tree of a Go regular expression, restricted to the operators that occur in
the pattern of `isPlusOneComment`: literal runes, the end-of-text assertion, a
character class, concatenation, alternation and a capturing group. -/
inductive Regexp where
  | Literal (c : Char)
  | EndText
  | CharClass (p : Char → Bool)
  | Concat (a b : Regexp)
  | Alternate (a b : Regexp)
  | Capture (r : Regexp)

/-- Backtracking matcher: `re.matchK rest k` holds when `re` matches a prefix of the
remaining input `rest` and the continuation `k` accepts what is left after it.
`EndText` (the pattern `$` without the multi-line flag) succeeds only when nothing
remains of the text. -/
def Regexp.matchK : Regexp → List Char → (List Char → Bool) → Bool
  | .Literal _, [], _ => false
  | .Literal c, x :: xs, k => x == c && k xs
  | .EndText, xs, k => xs.isEmpty && k xs
  | .CharClass _, [], _ => false
  | .CharClass p, x :: xs, k => p x && k xs
  | .Concat a b, xs, k => a.matchK xs (fun rest => b.matchK rest k)
  | .Alternate a b, xs, k => a.matchK xs k || b.matchK xs k
  | .Capture r, xs, k => r.matchK xs k

/-- The method `(*Regexp).MatchString`: the pattern is unanchored, so the text matches
when the pattern matches starting at some position of it. The text is the sequence
of runes that the engine decodes from the Go string (a byte that is not valid UTF-8
decodes to the replacement rune, which is not a digit). -/
def Regexp.MatchString (re : Regexp) (s : String) : Bool :=
  s.toList.tails.any (fun t => re.matchK t (fun _ => true))

/-- The Perl class `\D`: every rune that is not one of `0`..`9`. -/
def notDigit (c : Char) : Bool := !c.isDigit

/-- The pattern of `main.go` line 60: a plus sign, a one, then a group that is either the
end of the text or one rune that is not a digit. -/
def isPlusOneComment : Regexp :=
  .Concat (.Concat (.Literal '+') (.Literal '1'))
    (.Capture (.Alternate .EndText (.CharClass notDigit)))

example : isPlusOneComment.MatchString "+1" = true := by decide
example : isPlusOneComment.MatchString "+10" = false := by decide
example : isPlusOneComment.MatchString "LGTM :+1: thanks" = true := by decide
example : isPlusOneComment.MatchString "+10 and +1\n" = true := by decide
example : isPlusOneComment.MatchString "" = false := by decide

/-! ## Data model -/

/-- A Go `error` value, identified by the text its `Error()` method returns. -/
structure GoError where
  Error : String
deriving DecidableEq, Repr

/-- The constant `http.StatusInternalServerError`. -/
def StatusInternalServerError : Nat := 500

/-- The two implementations of the `Response` interface that `main.go` constructs.
`ErrorResponse{err, status, message}` and `SuccessResponse{message}` are written in
the source as positional composite literals; the fields are kept in that order. -/
inductive Response where
  | ErrorResponse (err : GoError) (status : Nat) (message : String)
  | SuccessResponse (message : String)
deriving DecidableEq, Repr

/-- Whether a response is an `ErrorResponse`. -/
def Response.isError : Response → Bool
  | .ErrorResponse _ _ _ => true
  | .SuccessResponse _ => false

/-- The configuration value returned by `NewConfig`: the fields read in `main.go`. -/
structure Config where
  Secret : String
  AccessToken : String
  Port : Nat

/-- An `http.Header`: a map from canonical header name to its list of values (a name
that is absent maps to the empty list). -/
abbrev Header := String → List String

/-- The method `Header.Get`: the first value stored under the name, or the empty string
when there is none. -/
def Header.Get (h : Header) (key : String) : String :=
  match h key with
  | [] => ""
  | v :: _ => v

/-- An inbound `*http.Request`: its headers and what `ioutil.ReadAll(r.Body)` yields,
either the whole body or a read error. -/
structure Request where
  Header : Header
  Body : Except GoError (List UInt8)

/-- Types that `main.go` mentions but that are declared in other files: the client
interfaces handed to `CreateHandler`, the fields of the two parsed events that
`main.go` never reads, the response writer, and the state of everything the command
handlers act upon (local clones and the hosting platform). -/
structure Externals where
  Git : Type
  PullRequests : Type
  Repositories : Type
  Issues : Type
  ResponseWriter : Type
  IssueCommentRest : Type
  PullRequestEventRest : Type
  World : Type

/-- A parsed issue comment: the two fields `main.go` reads, and the remaining ones. -/
structure IssueComment (ρ : Type) where
  IsPullRequest : Bool
  Comment : String
  rest : ρ

/-- A parsed pull-request event: the field `main.go` reads, and the remaining ones. -/
structure PullRequestEvent (ρ : Type) where
  Action : String
  rest : ρ

/-- Functions that `main.go` calls and that are defined in other files of the
repository. The authenticator, the parsers and the two command predicates are
functions of their arguments; the command handlers and the fixup check also act on
the world. `checkAuthentication` returns `none` for Go's `nil` response. -/
structure Deps (E : Externals) where
  checkAuthentication : List UInt8 → Request → String → Option Response
  parseIssueComment : List UInt8 → Except GoError (IssueComment E.IssueCommentRest)
  parsePullRequestEvent : List UInt8 → Except GoError (PullRequestEvent E.PullRequestEventRest)
  isSquashCommand : String → Bool
  isMergeCommand : String → Bool
  handleSquashCommand : IssueComment E.IssueCommentRest → E.Git → E.PullRequests →
    E.Repositories → E.World → Response × E.World
  handleMergeCommand : IssueComment E.IssueCommentRest → E.Issues → E.PullRequests →
    E.Repositories → E.Git → E.World → Response × E.World
  handlePlusOneComment : IssueComment E.IssueCommentRest → E.PullRequests →
    E.Repositories → E.World → Response × E.World
  checkForFixupCommits : PullRequestEvent E.PullRequestEventRest → E.PullRequests →
    E.Repositories → E.World → Response × E.World

/-! ## Execution state -/

/-- The functions whose calls are written out in `main.go`. -/
inductive Call where
  | ReadAll
  | checkAuthentication
  | HeaderGet
  | handleIssueComment
  | handlePullRequestEvent
  | parseIssueComment
  | parsePullRequestEvent
  | isSquashCommand
  | isMergeCommand
  | isPlusOneComment
  | handleSquashCommand
  | handleMergeCommand
  | handlePlusOneComment
  | checkForFixupCommits
deriving DecidableEq, Repr

/-- State threaded through a request: the world, and the calls made so far by the
functions of `main.go`, in the order they were made. -/
structure Exec (σ : Type) where
  world : σ
  calls : List Call

/-- The state at the start of a request. -/
def Exec.start {σ : Type} (w : σ) : Exec σ := ⟨w, []⟩

/-- Record that a function is being called. -/
def Exec.enter {σ : Type} (s : Exec σ) (c : Call) : Exec σ := ⟨s.world, s.calls ++ [c]⟩

/-- Call a world-changing function `f`, recorded under the name `c`, and return its
response. -/
def Exec.invoke {σ : Type} (s : Exec σ) (c : Call) (f : σ → Response × σ) :
    Response × Exec σ :=
  ((f s.world).1, ⟨(f s.world).2, s.calls ++ [c]⟩)

/-! ## The handlers of `main.go` -/

variable {E : Externals}

/-- Source `handleIssueComment` (lines 62-79). -/
def handleIssueComment (d : Deps E) (body : List UInt8) (git : E.Git)
    (pullRequests : E.PullRequests) (repositories : E.Repositories) (issues : E.Issues)
    (s : Exec E.World) : Response × Exec E.World :=
  let s := (s.enter .handleIssueComment).enter .parseIssueComment
  match d.parseIssueComment body with
  | .error err =>
    (.ErrorResponse err StatusInternalServerError "Failed to parse the request's body", s)
  | .ok issueComment =>
    if !issueComment.IsPullRequest then
      (.SuccessResponse "Not a PR. Ignoring.", s)
    else
      let s := s.enter .isSquashCommand
      if d.isSquashCommand issueComment.Comment then
        s.invoke .handleSquashCommand
          (d.handleSquashCommand issueComment git pullRequests repositories)
      else
        let s := s.enter .isMergeCommand
        if d.isMergeCommand issueComment.Comment then
          s.invoke .handleMergeCommand
            (d.handleMergeCommand issueComment issues pullRequests repositories git)
        else
          let s := s.enter .isPlusOneComment
          if isPlusOneComment.MatchString issueComment.Comment then
            s.invoke .handlePlusOneComment
              (d.handlePlusOneComment issueComment pullRequests repositories)
          else
            (.SuccessResponse "Not a command I understand. Ignoring.", s)

/-- Source `handlePullRequestEvent` (lines 81-89). -/
def handlePullRequestEvent (d : Deps E) (body : List UInt8)
    (pullRequests : E.PullRequests) (repositories : E.Repositories)
    (s : Exec E.World) : Response × Exec E.World :=
  let s := (s.enter .handlePullRequestEvent).enter .parsePullRequestEvent
  match d.parsePullRequestEvent body with
  | .error err =>
    (.ErrorResponse err StatusInternalServerError "Failed to parse the request's body", s)
  | .ok pullRequestEvent =>
    if !(pullRequestEvent.Action == "opened" || pullRequestEvent.Action == "synchronize") then
      (.SuccessResponse "PR not opened or synchronized. Ignoring.", s)
    else
      s.invoke .checkForFixupCommits
        (d.checkForFixupCommits pullRequestEvent pullRequests repositories)

/-- The type `Handler`: what `CreateHandler` returns. -/
abbrev Handler (E : Externals) :=
  E.ResponseWriter → Request → Exec E.World → Response × Exec E.World

/-- Source `CreateHandler` (lines 39-57). -/
def CreateHandler (d : Deps E) (conf : Config) (git : E.Git)
    (pullRequests : E.PullRequests) (repositories : E.Repositories) (issues : E.Issues) :
    Handler E :=
  fun _w r s =>
    let s := s.enter .ReadAll
    match r.Body with
    | .error err =>
      (.ErrorResponse err StatusInternalServerError "Failed to read the request's body", s)
    | .ok body =>
      let s := s.enter .checkAuthentication
      match d.checkAuthentication body r conf.Secret with
      | some errResp => (errResp, s)
      | none =>
        let s := s.enter .HeaderGet
        let eventType := r.Header.Get "X-Github-Event"
        if eventType = "issue_comment" then
          handleIssueComment d body git pullRequests repositories issues s
        else if eventType = "pull_request" then
          handlePullRequestEvent d body pullRequests repositories s
        else
          (.SuccessResponse "Not an event I understand. Ignoring.", s)

/-! ## A sample instance

The theorems below hold for every choice of the external functions; this instance
serves to evaluate the handlers on concrete requests. -/

/-- Sample choice of the external types: the clients carry no data and the world is the
journal of the actions performed so far. -/
def sampleExternals : Externals :=
  ⟨Unit, Unit, Unit, Unit, Unit, Unit, Unit, List String⟩

/-- Bytes of an ASCII text. -/
def bytesOf (s : String) : List UInt8 := s.toList.map (fun c => UInt8.ofNat c.toNat)

/-- Text held by a list of ASCII bytes. -/
def textOf (bs : List UInt8) : String := String.mk (bs.map (fun b => Char.ofNat b.toNat))

/-- Sample external functions. A request is authenticated when its `X-Hub-Signature`
header equals the secret. An event body is one flag byte followed by a text: for an
issue comment the flag tells whether the issue is a pull request and the text is the
comment, for a pull-request event the text is the action; the empty body does not
parse. A comment is a squash (merge) command when it starts with `!squash` (`!merge`).
Each handler appends its name to the journal. -/
def sampleDeps : Deps sampleExternals where
  checkAuthentication := fun _ r secret =>
    if r.Header.Get "X-Hub-Signature" = secret then none
    else some (.ErrorResponse ⟨"signature mismatch"⟩ 401 "Unauthorized")
  parseIssueComment := fun body =>
    match body with
    | [] => .error ⟨"unexpected end of JSON input"⟩
    | flag :: text => .ok ⟨flag != 0, textOf text, ()⟩
  parsePullRequestEvent := fun body =>
    match body with
    | [] => .error ⟨"unexpected end of JSON input"⟩
    | _ :: text => .ok ⟨textOf text, ()⟩
  isSquashCommand := fun c => "!squash".toList.isPrefixOf c.toList
  isMergeCommand := fun c => "!merge".toList.isPrefixOf c.toList
  handleSquashCommand := fun _ _ _ _ (w : List String) =>
    (.SuccessResponse "squashed", w ++ ["squash"])
  handleMergeCommand := fun _ _ _ _ _ (w : List String) =>
    (.SuccessResponse "merged", w ++ ["merge"])
  handlePlusOneComment := fun _ _ _ (w : List String) =>
    (.SuccessResponse "approved", w ++ ["approve"])
  checkForFixupCommits := fun _ _ _ (w : List String) =>
    (.SuccessResponse "checked", w ++ ["fixup check"])

/-- Sample configuration. -/
def sampleConfig : Config := ⟨"s3cret", "token", 8080⟩

/-- Sample request with the given signature, event type and body. -/
def sampleRequest (signature eventType : List String) (body : Except GoError (List UInt8)) :
    Request where
  Header := fun key =>
    if key = "X-Hub-Signature" then signature
    else if key = "X-Github-Event" then eventType
    else []
  Body := body

/-- The sample handler: `CreateHandler` applied to the sample instance. -/
def sampleHandler : Request → List String → Response × Exec (List String) :=
  fun r w => CreateHandler sampleDeps sampleConfig () () () () () r (Exec.start w)

example : (sampleHandler (sampleRequest ["s3cret"] ["issue_comment"]
    (.ok (1 :: bytesOf "!squash +1"))) []).1 = .SuccessResponse "squashed" := by rfl
example : (sampleHandler (sampleRequest ["s3cret"] ["issue_comment"]
    (.ok (1 :: bytesOf "LGTM :+1:"))) []).2.world = ["approve"] := by rfl
example : (sampleHandler (sampleRequest ["nope"] ["issue_comment"]
    (.ok (1 :: bytesOf "!squash"))) []).2.calls = [.ReadAll, .checkAuthentication] := by rfl
example : (sampleHandler (sampleRequest ["s3cret"] ["pull_request"]
    (.ok (0 :: bytesOf "closed"))) []).1 =
      .SuccessResponse "PR not opened or synchronized. Ignoring." := by rfl
example : (sampleHandler (sampleRequest ["s3cret"] ["pull_request"]
    (.ok (0 :: bytesOf "synchronize"))) []).2.calls =
      [.ReadAll, .checkAuthentication, .HeaderGet, .handlePullRequestEvent,
        .parsePullRequestEvent, .checkForFixupCommits] := by rfl

/-! ## The approval pattern -/

/-- Matching `isPlusOneComment` at the start of the remaining input `t`: `t` begins
with `+1`, and what follows is empty or begins with a rune that is not a digit. -/
theorem matchK_isPlusOneComment_iff (t : List Char) :
    isPlusOneComment.matchK t (fun _ => true) = true ↔
      ∃ rest, t = '+' :: '1' :: rest ∧
        (rest = [] ∨ ∃ c tl, rest = c :: tl ∧ c.isDigit = false) := by
  rcases t with _ | ⟨a, _ | ⟨b, _ | ⟨c, tl⟩⟩⟩
  · simp [isPlusOneComment, Regexp.matchK]
  · simp [isPlusOneComment, Regexp.matchK]
  · simp only [isPlusOneComment, Regexp.matchK, notDigit]
    constructor
    · intro h
      simp at h
      exact ⟨[], by simp [h.1, h.2], Or.inl rfl⟩
    · rintro ⟨rest, h, -⟩
      simp at h
      simp [h.1, h.2.1]
  · simp only [isPlusOneComment, Regexp.matchK, notDigit]
    constructor
    · intro h
      simp at h
      exact ⟨c :: tl, by simp [h.1, h.2.1], Or.inr ⟨c, tl, rfl, h.2.2⟩⟩
    · rintro ⟨rest, h, hr⟩
      simp at h
      obtain ⟨ha, hb, rfl⟩ := h
      rcases hr with hr | ⟨c2, tl2, hr, hd⟩
      · simp at hr
      · simp at hr
        simp [ha, hb, hr.1, hd]

/-- Characterisation of `isPlusOneComment.MatchString` on the runes of the text. -/
theorem MatchString_isPlusOneComment_iff (s : String) :
    isPlusOneComment.MatchString s = true ↔
      ∃ pre rest, s.toList = pre ++ '+' :: '1' :: rest ∧
        (rest = [] ∨ ∃ c tl, rest = c :: tl ∧ c.isDigit = false) := by
  unfold Regexp.MatchString
  rw [List.any_eq_true]
  constructor
  · rintro ⟨t, ht, hm⟩
    obtain ⟨rest, rfl, hrest⟩ := (matchK_isPlusOneComment_iff t).1 hm
    obtain ⟨pre, hpre⟩ := (List.mem_tails _ _).1 ht
    exact ⟨pre, rest, hpre.symm, hrest⟩
  · rintro ⟨pre, rest, hs, hrest⟩
    refine ⟨'+' :: '1' :: rest, (List.mem_tails _ _).2 ⟨pre, hs.symm⟩, ?_⟩
    exact (matchK_isPlusOneComment_iff _).2 ⟨rest, rfl, hrest⟩

/-- The runes of a text split as prefix, `+1`, suffix. -/
theorem toList_plusOne_split (pre suf : String) :
    (pre ++ "+1" ++ suf).toList = pre.toList ++ '+' :: '1' :: suf.toList := by
  simp [String.toList]

/-- C1: every comment text that contains a `+1` which ends the text or is immediately
followed by a character that is not a digit, and every comment text that contains the
shortcode `:+1:`, is matched by `isPlusOneComment` (a substring match: any text may
precede the `+1`, and any text not starting with a digit may follow it). -/
theorem isPlusOneComment_matches_approval (s : String)
    (h : (∃ pre suf : String, s = pre ++ "+1" ++ suf ∧
            (suf = "" ∨ ∃ c, suf.toList.head? = some c ∧ c.isDigit = false)) ∨
         (∃ pre suf : String, s = pre ++ ":+1:" ++ suf)) :
    isPlusOneComment.MatchString s = true := by
  rw [MatchString_isPlusOneComment_iff]
  rcases h with ⟨pre, suf, rfl, hsuf⟩ | ⟨pre, suf, rfl⟩
  · refine ⟨pre.toList, suf.toList, toList_plusOne_split pre suf, ?_⟩
    rcases hsuf with rfl | ⟨c, hc, hd⟩
    · exact Or.inl rfl
    · right
      cases hl : suf.toList with
      | nil =>
        rw [hl] at hc
        simp at hc
      | cons x tl =>
        rw [hl] at hc
        simp at hc
        exact ⟨x, tl, rfl, hc ▸ hd⟩
  · refine ⟨pre.toList ++ [':'], ':' :: suf.toList, ?_, Or.inr ⟨':', suf.toList, rfl, by decide⟩⟩
    simp [String.toList]

/-- Witness for C1 on a comment that embeds the approval in a longer sentence. -/
theorem isPlusOneComment_matches_approval_witness :
    ((∃ pre suf : String, "ok +1, ship it" = pre ++ "+1" ++ suf ∧
        (suf = "" ∨ ∃ c, suf.toList.head? = some c ∧ c.isDigit = false)) ∨
      (∃ pre suf : String, "ok +1, ship it" = pre ++ ":+1:" ++ suf)) ∧
    isPlusOneComment.MatchString "ok +1, ship it" = true :=
  have h : (∃ pre suf : String, "ok +1, ship it" = pre ++ "+1" ++ suf ∧
        (suf = "" ∨ ∃ c, suf.toList.head? = some c ∧ c.isDigit = false)) ∨
      (∃ pre suf : String, "ok +1, ship it" = pre ++ ":+1:" ++ suf) :=
    Or.inl ⟨"ok ", ", ship it", by decide, Or.inr ⟨',', by decide, by decide⟩⟩
  ⟨h, isPlusOneComment_matches_approval "ok +1, ship it" h⟩

/-- C2: `isPlusOneComment` does not match `+10`, and more generally does not match any
comment text in which every occurrence of `+1` is immediately followed by a digit
`0`..`9` (in particular any text without a `+1`). -/
theorem isPlusOneComment_rejects_digit_follow :
    isPlusOneComment.MatchString "+10" = false ∧
    ∀ s : String,
      (∀ pre suf : String, s = pre ++ "+1" ++ suf →
        ∃ c, suf.toList.head? = some c ∧ c.isDigit = true) →
      isPlusOneComment.MatchString s = false := by
  refine ⟨by decide, ?_⟩
  intro s h
  rw [Bool.eq_false_iff]
  intro hm
  obtain ⟨pre, rest, hs, hrest⟩ := (MatchString_isPlusOneComment_iff s).1 hm
  have hsplit : s = String.mk pre ++ "+1" ++ String.mk rest := by
    apply String.ext
    simpa [String.toList] using hs
  obtain ⟨c, hc, hd⟩ := h _ _ hsplit
  rcases hrest with rfl | ⟨c2, tl, rfl, hd2⟩
  · simp [String.toList] at hc
  · simp [String.toList] at hc
    rw [hc] at hd2
    simp [hd2] at hd

/-- Witness for C2 at the text `+10`, whose only `+1` is followed by the digit `0`. -/
theorem isPlusOneComment_rejects_digit_follow_witness :
    (∀ pre suf : String, "+10" = pre ++ "+1" ++ suf →
        ∃ c, suf.toList.head? = some c ∧ c.isDigit = true) ∧
    isPlusOneComment.MatchString "+10" = false :=
  have h : ∀ pre suf : String, "+10" = pre ++ "+1" ++ suf →
      ∃ c, suf.toList.head? = some c ∧ c.isDigit = true := by
    intro pre suf hs
    have hl := congrArg String.toList hs
    rw [toList_plusOne_split] at hl
    rcases hp : pre.toList with _ | ⟨a, _ | ⟨b, ptl⟩⟩
    · rw [hp] at hl
      have : suf.toList = ['0'] := by simpa [String.toList] using hl.symm
      exact ⟨'0', by rw [this]; rfl, by decide⟩
    · rw [hp] at hl
      simp [String.toList] at hl
    · rw [hp] at hl
      have hlen := congrArg List.length hl
      simp [String.toList] at hlen
      omega
  ⟨h, isPlusOneComment_rejects_digit_follow.2 "+10" h⟩

/-! ## Routing -/

/-- C3: when the body is readable and `checkAuthentication` returns an error response,
the handler built by `CreateHandler` returns exactly that response, whatever the
headers and the body are; the world is untouched and the only calls made are the body
read and the authentication check, so neither event handler runs and the body is never
parsed as an event. -/
theorem CreateHandler_rejects_unauthenticated (d : Deps E) (conf : Config) (git : E.Git)
    (pullRequests : E.PullRequests) (repositories : E.Repositories) (issues : E.Issues)
    (rw : E.ResponseWriter) (r : Request) (w : E.World) (body : List UInt8)
    (errResp : Response) (hbody : r.Body = .ok body)
    (hauth : d.checkAuthentication body r conf.Secret = some errResp) :
    CreateHandler d conf git pullRequests repositories issues rw r (Exec.start w) =
      (errResp, ⟨w, [.ReadAll, .checkAuthentication]⟩) := by
  simp [CreateHandler, hbody, hauth, Exec.start, Exec.enter]

/-- Witness for C3: a forged signature on a squash comment is rejected before routing. -/
theorem CreateHandler_rejects_unauthenticated_witness :
    CreateHandler sampleDeps sampleConfig () () () () ()
        (sampleRequest ["forged"] ["issue_comment"] (.ok (1 :: bytesOf "!squash")))
        (Exec.start ([] : List String)) =
      (.ErrorResponse ⟨"signature mismatch"⟩ 401 "Unauthorized",
        ⟨[], [.ReadAll, .checkAuthentication]⟩) :=
  CreateHandler_rejects_unauthenticated sampleDeps sampleConfig () () () () ()
    (sampleRequest ["forged"] ["issue_comment"] (.ok (1 :: bytesOf "!squash")))
    ([] : List String) (1 :: bytesOf "!squash")
    (.ErrorResponse ⟨"signature mismatch"⟩ 401 "Unauthorized") rfl rfl

/-- C4: for an authenticated request with a readable body whose `X-Github-Event` value is
neither `issue_comment` nor `pull_request`, the handler built by `CreateHandler` returns
the success response "Not an event I understand. Ignoring.", which is not an error
response, leaves the world untouched and calls no event handler. -/
theorem CreateHandler_ignores_unknown_event (d : Deps E) (conf : Config) (git : E.Git)
    (pullRequests : E.PullRequests) (repositories : E.Repositories) (issues : E.Issues)
    (rw : E.ResponseWriter) (r : Request) (w : E.World) (body : List UInt8)
    (hbody : r.Body = .ok body)
    (hauth : d.checkAuthentication body r conf.Secret = none)
    (hic : r.Header.Get "X-Github-Event" ≠ "issue_comment")
    (hpr : r.Header.Get "X-Github-Event" ≠ "pull_request") :
    CreateHandler d conf git pullRequests repositories issues rw r (Exec.start w) =
        (.SuccessResponse "Not an event I understand. Ignoring.",
          ⟨w, [.ReadAll, .checkAuthentication, .HeaderGet]⟩) ∧
      (CreateHandler d conf git pullRequests repositories issues rw r
        (Exec.start w)).1.isError = false := by
  simp [CreateHandler, hbody, hauth, hic, hpr, Exec.start, Exec.enter, Response.isError]

/-- Witness for C4: an authenticated request without an `X-Github-Event` header. -/
theorem CreateHandler_ignores_unknown_event_witness :
    CreateHandler sampleDeps sampleConfig () () () () ()
          (sampleRequest ["s3cret"] [] (.ok (1 :: bytesOf "!squash")))
          (Exec.start ([] : List String)) =
        (.SuccessResponse "Not an event I understand. Ignoring.",
          ⟨[], [.ReadAll, .checkAuthentication, .HeaderGet]⟩) ∧
      (CreateHandler sampleDeps sampleConfig () () () () ()
          (sampleRequest ["s3cret"] [] (.ok (1 :: bytesOf "!squash")))
          (Exec.start ([] : List String))).1.isError = false :=
  CreateHandler_ignores_unknown_event sampleDeps sampleConfig () () () () ()
    (sampleRequest ["s3cret"] [] (.ok (1 :: bytesOf "!squash")))
    ([] : List String) (1 :: bytesOf "!squash") rfl rfl (by decide) (by decide)

/-! ## Issue comments -/

/-- C5: when the body parses to a comment on a pull request whose text is neither a squash
command nor a merge command and is not matched by `isPlusOneComment`,
`handleIssueComment` returns the success response "Not a command I understand.
Ignoring.", leaves the world untouched, and calls none of `handleSquashCommand`,
`handleMergeCommand`, `handlePlusOneComment`. -/
theorem handleIssueComment_ignores_unknown_command (d : Deps E) (body : List UInt8)
    (git : E.Git) (pullRequests : E.PullRequests) (repositories : E.Repositories)
    (issues : E.Issues) (w : E.World) (issueComment : IssueComment E.IssueCommentRest)
    (hparse : d.parseIssueComment body = .ok issueComment)
    (hpr : issueComment.IsPullRequest = true)
    (hsquash : d.isSquashCommand issueComment.Comment = false)
    (hmerge : d.isMergeCommand issueComment.Comment = false)
    (hplus : isPlusOneComment.MatchString issueComment.Comment = false) :
    handleIssueComment d body git pullRequests repositories issues (Exec.start w) =
        (.SuccessResponse "Not a command I understand. Ignoring.",
          ⟨w, [.handleIssueComment, .parseIssueComment, .isSquashCommand,
            .isMergeCommand, .isPlusOneComment]⟩) ∧
      (∀ c ∈ (handleIssueComment d body git pullRequests repositories issues
          (Exec.start w)).2.calls,
        c ≠ .handleSquashCommand ∧ c ≠ .handleMergeCommand ∧ c ≠ .handlePlusOneComment) := by
  have h : handleIssueComment d body git pullRequests repositories issues (Exec.start w) =
      (.SuccessResponse "Not a command I understand. Ignoring.",
        ⟨w, [.handleIssueComment, .parseIssueComment, .isSquashCommand,
          .isMergeCommand, .isPlusOneComment]⟩) := by
    simp [handleIssueComment, hparse, hpr, hsquash, hmerge, hplus, Exec.start, Exec.enter]
  refine ⟨h, ?_⟩
  rw [h]
  intro c hc
  simp only [List.mem_cons, List.mem_singleton, List.not_mem_nil, or_false] at hc
  rcases hc with rfl | rfl | rfl | rfl | rfl <;> decide

/-- Witness for C5: the comment `+10` on a pull request is no command and no approval. -/
theorem handleIssueComment_ignores_unknown_command_witness :
    handleIssueComment sampleDeps (1 :: bytesOf "+10") () () () ()
          (Exec.start ([] : List String)) =
        (.SuccessResponse "Not a command I understand. Ignoring.",
          ⟨[], [.handleIssueComment, .parseIssueComment, .isSquashCommand,
            .isMergeCommand, .isPlusOneComment]⟩) ∧
      (∀ c ∈ (handleIssueComment sampleDeps (1 :: bytesOf "+10") () () () ()
          (Exec.start ([] : List String))).2.calls,
        c ≠ .handleSquashCommand ∧ c ≠ .handleMergeCommand ∧ c ≠ .handlePlusOneComment) :=
  handleIssueComment_ignores_unknown_command sampleDeps (1 :: bytesOf "+10") () () () ()
    ([] : List String) ⟨true, "+10", ()⟩ rfl rfl rfl rfl (by decide)

/-- C6: a body that fails to parse is an internal error, not a no-op. When
`parseIssueComment` returns an error, `handleIssueComment` returns an error response
carrying that error with status 500; when `parsePullRequestEvent` returns an error,
`handlePullRequestEvent` returns an error response carrying that error with status
500. In both cases the world is untouched and the parser is the only function called,
so no command handler and no fixup check runs. -/
theorem parse_failure_is_internal_error (d : Deps E) (body : List UInt8) (git : E.Git)
    (pullRequests : E.PullRequests) (repositories : E.Repositories) (issues : E.Issues)
    (w : E.World) (err : GoError) :
    (d.parseIssueComment body = .error err →
      handleIssueComment d body git pullRequests repositories issues (Exec.start w) =
        (.ErrorResponse err 500 "Failed to parse the request's body",
          ⟨w, [.handleIssueComment, .parseIssueComment]⟩)) ∧
    (d.parsePullRequestEvent body = .error err →
      handlePullRequestEvent d body pullRequests repositories (Exec.start w) =
        (.ErrorResponse err 500 "Failed to parse the request's body",
          ⟨w, [.handlePullRequestEvent, .parsePullRequestEvent]⟩)) := by
  constructor
  · intro h
    simp [handleIssueComment, h, Exec.start, Exec.enter, StatusInternalServerError]
  · intro h
    simp [handlePullRequestEvent, h, Exec.start, Exec.enter, StatusInternalServerError]

/-- Witness for C6: the empty body parses neither as an issue comment nor as a pull-request
event. -/
theorem parse_failure_is_internal_error_witness :
    handleIssueComment sampleDeps [] () () () () (Exec.start ([] : List String)) =
        (.ErrorResponse ⟨"unexpected end of JSON input"⟩ 500
          "Failed to parse the request's body",
          ⟨[], [.handleIssueComment, .parseIssueComment]⟩) ∧
    handlePullRequestEvent sampleDeps [] () () (Exec.start ([] : List String)) =
        (.ErrorResponse ⟨"unexpected end of JSON input"⟩ 500
          "Failed to parse the request's body",
          ⟨[], [.handlePullRequestEvent, .parsePullRequestEvent]⟩) :=
  ⟨(parse_failure_is_internal_error sampleDeps [] () () () () ([] : List String)
      ⟨"unexpected end of JSON input"⟩).1 rfl,
    (parse_failure_is_internal_error sampleDeps [] () () () () ([] : List String)
      ⟨"unexpected end of JSON input"⟩).2 rfl⟩

/-- C7: when the body parses to a comment whose `IsPullRequest` flag is false,
`handleIssueComment` returns the success response "Not a PR. Ignoring." whatever the
comment text is (the command predicates are not even evaluated), leaves the world
untouched and calls no command handler. -/
theorem handleIssueComment_ignores_plain_issue (d : Deps E) (body : List UInt8)
    (git : E.Git) (pullRequests : E.PullRequests) (repositories : E.Repositories)
    (issues : E.Issues) (w : E.World) (issueComment : IssueComment E.IssueCommentRest)
    (hparse : d.parseIssueComment body = .ok issueComment)
    (hpr : issueComment.IsPullRequest = false) :
    handleIssueComment d body git pullRequests repositories issues (Exec.start w) =
      (.SuccessResponse "Not a PR. Ignoring.",
        ⟨w, [.handleIssueComment, .parseIssueComment]⟩) := by
  simp [handleIssueComment, hparse, hpr, Exec.start, Exec.enter]

/-- Witness for C7: a comment on a plain issue that is at once a squash command and an
approval. -/
theorem handleIssueComment_ignores_plain_issue_witness :
    (sampleDeps.isSquashCommand "!squash +1" = true ∧
      isPlusOneComment.MatchString "!squash +1" = true) ∧
    handleIssueComment sampleDeps (0 :: bytesOf "!squash +1") () () () ()
        (Exec.start ([] : List String)) =
      (.SuccessResponse "Not a PR. Ignoring.",
        ⟨[], [.handleIssueComment, .parseIssueComment]⟩) :=
  ⟨⟨by decide, by decide⟩,
    handleIssueComment_ignores_plain_issue sampleDeps (0 :: bytesOf "!squash +1") () () () ()
      ([] : List String) ⟨false, "!squash +1", ()⟩ rfl rfl⟩

/-- C10: `handleIssueComment` dispatches a pull-request comment with the fixed precedence
squash, merge, approval. If `isSquashCommand` holds the outcome is that of
`handleSquashCommand`, whatever the other two tests would say; otherwise if
`isMergeCommand` holds the outcome is that of `handleMergeCommand`, whatever the
approval pattern would say; otherwise if `isPlusOneComment` matches the outcome is that
of `handlePlusOneComment`. In each case exactly one command handler is called, and
`handlePlusOneComment` is called only when the text matches `isPlusOneComment` and is
neither a squash nor a merge command. -/
theorem handleIssueComment_dispatch_precedence (d : Deps E) (body : List UInt8)
    (git : E.Git) (pullRequests : E.PullRequests) (repositories : E.Repositories)
    (issues : E.Issues) (w : E.World) (issueComment : IssueComment E.IssueCommentRest)
    (hparse : d.parseIssueComment body = .ok issueComment)
    (hpr : issueComment.IsPullRequest = true) :
    (d.isSquashCommand issueComment.Comment = true →
      handleIssueComment d body git pullRequests repositories issues (Exec.start w) =
        ((d.handleSquashCommand issueComment git pullRequests repositories w).1,
          ⟨(d.handleSquashCommand issueComment git pullRequests repositories w).2,
            [.handleIssueComment, .parseIssueComment, .isSquashCommand,
              .handleSquashCommand]⟩)) ∧
    (d.isSquashCommand issueComment.Comment = false →
      d.isMergeCommand issueComment.Comment = true →
      handleIssueComment d body git pullRequests repositories issues (Exec.start w) =
        ((d.handleMergeCommand issueComment issues pullRequests repositories git w).1,
          ⟨(d.handleMergeCommand issueComment issues pullRequests repositories git w).2,
            [.handleIssueComment, .parseIssueComment, .isSquashCommand, .isMergeCommand,
              .handleMergeCommand]⟩)) ∧
    (d.isSquashCommand issueComment.Comment = false →
      d.isMergeCommand issueComment.Comment = false →
      isPlusOneComment.MatchString issueComment.Comment = true →
      handleIssueComment d body git pullRequests repositories issues (Exec.start w) =
        ((d.handlePlusOneComment issueComment pullRequests repositories w).1,
          ⟨(d.handlePlusOneComment issueComment pullRequests repositories w).2,
            [.handleIssueComment, .parseIssueComment, .isSquashCommand, .isMergeCommand,
              .isPlusOneComment, .handlePlusOneComment]⟩)) ∧
    (Call.handlePlusOneComment ∈
        (handleIssueComment d body git pullRequests repositories issues
          (Exec.start w)).2.calls →
      d.isSquashCommand issueComment.Comment = false ∧
        d.isMergeCommand issueComment.Comment = false ∧
        isPlusOneComment.MatchString issueComment.Comment = true) := by
  refine ⟨?_, ?_, ?_, ?_⟩
  · intro hs
    simp [handleIssueComment, hparse, hpr, hs, Exec.start, Exec.enter, Exec.invoke]
  · intro hs hm
    simp [handleIssueComment, hparse, hpr, hs, hm, Exec.start, Exec.enter, Exec.invoke]
  · intro hs hm hp
    simp [handleIssueComment, hparse, hpr, hs, hm, hp, Exec.start, Exec.enter, Exec.invoke]
  · cases hs : d.isSquashCommand issueComment.Comment <;>
      cases hm : d.isMergeCommand issueComment.Comment <;>
      cases hp : isPlusOneComment.MatchString issueComment.Comment <;>
      simp [handleIssueComment, hparse, hpr, hs, hm, hp, Exec.start, Exec.enter, Exec.invoke]

/-- Witness for C10: the comment `!squash +1` is a squash command and an approval, and is
handled as a squash; the comment `!merge :+1:` is a merge command and an approval, and
is handled as a merge. -/
theorem handleIssueComment_dispatch_precedence_witness :
    (isPlusOneComment.MatchString "!squash +1" = true ∧
      handleIssueComment sampleDeps (1 :: bytesOf "!squash +1") () () () ()
          (Exec.start ([] : List String)) =
        (.SuccessResponse "squashed",
          ⟨["squash"], [.handleIssueComment, .parseIssueComment, .isSquashCommand,
            .handleSquashCommand]⟩)) ∧
    (isPlusOneComment.MatchString "!merge :+1:" = true ∧
      handleIssueComment sampleDeps (1 :: bytesOf "!merge :+1:") () () () ()
          (Exec.start ([] : List String)) =
        (.SuccessResponse "merged",
          ⟨["merge"], [.handleIssueComment, .parseIssueComment, .isSquashCommand,
            .isMergeCommand, .handleMergeCommand]⟩)) :=
  ⟨⟨by decide,
      (handleIssueComment_dispatch_precedence sampleDeps (1 :: bytesOf "!squash +1")
        () () () () ([] : List String) ⟨true, "!squash +1", ()⟩ rfl rfl).1 (by decide)⟩,
    ⟨by decide,
      (handleIssueComment_dispatch_precedence sampleDeps (1 :: bytesOf "!merge :+1:")
        () () () () ([] : List String) ⟨true, "!merge :+1:", ()⟩ rfl rfl).2.1
          (by decide) (by decide)⟩⟩

/-! ## Pull-request events -/

/-- C8: for a body that parses to a pull-request event, `handlePullRequestEvent` runs
`checkForFixupCommits` and returns its outcome when the action is exactly `opened` or
exactly `synchronize`; for every other action it returns the success response "PR not
opened or synchronized. Ignoring." and leaves the world untouched. The fixup check is
called if and only if the action is `opened` or `synchronize`. -/
theorem handlePullRequestEvent_fixup_check_iff (d : Deps E) (body : List UInt8)
    (pullRequests : E.PullRequests) (repositories : E.Repositories) (w : E.World)
    (pullRequestEvent : PullRequestEvent E.PullRequestEventRest)
    (hparse : d.parsePullRequestEvent body = .ok pullRequestEvent) :
    (pullRequestEvent.Action = "opened" ∨ pullRequestEvent.Action = "synchronize" →
      handlePullRequestEvent d body pullRequests repositories (Exec.start w) =
        ((d.checkForFixupCommits pullRequestEvent pullRequests repositories w).1,
          ⟨(d.checkForFixupCommits pullRequestEvent pullRequests repositories w).2,
            [.handlePullRequestEvent, .parsePullRequestEvent, .checkForFixupCommits]⟩)) ∧
    (¬(pullRequestEvent.Action = "opened" ∨ pullRequestEvent.Action = "synchronize") →
      handlePullRequestEvent d body pullRequests repositories (Exec.start w) =
        (.SuccessResponse "PR not opened or synchronized. Ignoring.",
          ⟨w, [.handlePullRequestEvent, .parsePullRequestEvent]⟩)) ∧
    (Call.checkForFixupCommits ∈
        (handlePullRequestEvent d body pullRequests repositories (Exec.start w)).2.calls ↔
      pullRequestEvent.Action = "opened" ∨ pullRequestEvent.Action = "synchronize") := by
  by_cases h : pullRequestEvent.Action = "opened" ∨ pullRequestEvent.Action = "synchronize"
  · have hrun : handlePullRequestEvent d body pullRequests repositories (Exec.start w) =
        ((d.checkForFixupCommits pullRequestEvent pullRequests repositories w).1,
          ⟨(d.checkForFixupCommits pullRequestEvent pullRequests repositories w).2,
            [.handlePullRequestEvent, .parsePullRequestEvent, .checkForFixupCommits]⟩) := by
      rcases h with h | h <;>
        simp [handlePullRequestEvent, hparse, h, Exec.start, Exec.enter, Exec.invoke]
    refine ⟨fun _ => hrun, fun hn => absurd h hn, ?_⟩
    rw [hrun]
    simp [h]
  · have hskip : handlePullRequestEvent d body pullRequests repositories (Exec.start w) =
        (.SuccessResponse "PR not opened or synchronized. Ignoring.",
          ⟨w, [.handlePullRequestEvent, .parsePullRequestEvent]⟩) := by
      have h1 : pullRequestEvent.Action ≠ "opened" := fun e => h (Or.inl e)
      have h2 : pullRequestEvent.Action ≠ "synchronize" := fun e => h (Or.inr e)
      simp [handlePullRequestEvent, hparse, h1, h2, Exec.start, Exec.enter]
    refine ⟨fun hy => absurd hy h, fun _ => hskip, ?_⟩
    rw [hskip]
    simp [h]

/-- Witness for C8: a `synchronize` event runs the fixup check, a `closed` event does
not. -/
theorem handlePullRequestEvent_fixup_check_iff_witness :
    handlePullRequestEvent sampleDeps (0 :: bytesOf "synchronize") () ()
        (Exec.start ([] : List String)) =
      (.SuccessResponse "checked",
        ⟨["fixup check"],
          [.handlePullRequestEvent, .parsePullRequestEvent, .checkForFixupCommits]⟩) ∧
    handlePullRequestEvent sampleDeps (0 :: bytesOf "closed") () ()
        (Exec.start ([] : List String)) =
      (.SuccessResponse "PR not opened or synchronized. Ignoring.",
        ⟨[], [.handlePullRequestEvent, .parsePullRequestEvent]⟩) :=
  ⟨(handlePullRequestEvent_fixup_check_iff sampleDeps (0 :: bytesOf "synchronize") () ()
      ([] : List String) ⟨"synchronize", ()⟩ rfl).1 (Or.inr rfl),
    (handlePullRequestEvent_fixup_check_iff sampleDeps (0 :: bytesOf "closed") () ()
      ([] : List String) ⟨"closed", ()⟩ rfl).2.1 (by decide)⟩

end ReviewHelper
